import Mathlib

/-!
# Verification of the tau2 environment evaluator

Shallow embedding of `src/tau2/evaluator/evaluator_env.py`
(`EnvironmentEvaluator.calculate_reward`) together with the parts of the
data model it uses.  The data-model classes (`Task`, `EvaluationCriteria`,
`RewardInfo`, `DBCheck`, `EnvAssertionCheck`, the message types) and the
abstract `Environment` live outside the sources given here, so they are
modelled from the spec; the evaluator itself is translated line by line
from the source.  Stateful environment calls are modelled by explicit
state passing, fallible Python calls by `Except String`.  Float rewards
in the code only ever take the exact values `0.0` and `1.0` and products
of those, so they are exact and modelled by `Int`.
-/

namespace Tau2

/-- Modelled from the spec: the party attributed as the caller of a
replayed tool call (the `requestor` field of an Action / ToolCall). -/
inductive Requestor where
  | agent
  | user
deriving DecidableEq, Repr

/-- Keyword arguments of a tool call: a mapping of parameter name to
value.  Values are opaque to the evaluator and modelled as strings. -/
abbrev Args := List (String × String)

/-- Modelled from the spec: a tool call carried by a trajectory message. -/
structure ToolCall where
  name : String
  arguments : Args
deriving DecidableEq, Repr

/-- Modelled from the spec: a canonical Action of the evaluation
criteria: tool name, requestor and keyword arguments. -/
structure Action where
  name : String
  requestor : Requestor
  arguments : Args
deriving DecidableEq, Repr

/-- Modelled from the spec: a trajectory message.  The trajectory is a
sequence of user/assistant/tool/system messages; only assistant and user
messages may carry tool calls (`tool_calls` is `None` or a list). -/
inductive Message where
  | assistant (tool_calls : Option (List ToolCall))
  | user (tool_calls : Option (List ToolCall))
  | tool
  | system
deriving DecidableEq, Repr

/-- Modelled from the spec: the `tool_calls` attribute of a message
(absent on tool/system messages). -/
def Message.tool_calls : Message → Option (List ToolCall)
  | .assistant tcs => tcs
  | .user tcs => tcs
  | .tool => none
  | .system => none

/-- Modelled from the spec: `message.is_tool_call()` — whether the
message carries tool calls. -/
def Message.is_tool_call (m : Message) : Bool :=
  m.tool_calls.isSome

/-- Whether a message is an `AssistantMessage` or a `UserMessage`
(the `isinstance` checks on lines 82-84 of the evaluator). -/
def Message.isAssistantOrUser : Message → Bool
  | .assistant _ => true
  | .user _ => true
  | .tool => false
  | .system => false

/-- Modelled from the spec: a signal kind of the reward basis
(`RewardType`): state-match (DB), assertion-match (ENV_ASSERTION),
communication-match (COMMUNICATE). -/
inductive RewardType where
  | DB
  | ENV_ASSERTION
  | COMMUNICATE
deriving DecidableEq, Repr

/-- Opaque environment-specific seed state (`initialization_data`). -/
abbrev InitData := String

/-- A declarative environment assertion, opaque to the evaluator
(identified by name). -/
abbrev EnvAssertion := String

/-- A sub-state snapshot returned by `get_agent_db_state` /
`get_user_db_state`: a dictionary, modelled as an association list. -/
abbrev DbState := List (String × String)

/-- Modelled from the spec: the `EvaluationCriteria` owned by a Task:
optional canonical action list, optional environment assertions, and the
reward basis (set of signal kinds entering the scalar reward). -/
structure EvaluationCriteria where
  actions : Option (List Action)
  env_assertions : Option (List EnvAssertion)
  reward_basis : List RewardType
deriving DecidableEq, Repr

/-- Modelled from the spec: the `InitialState` owned by a Task. -/
structure InitialState where
  initialization_data : Option InitData := none
  initialization_actions : Option (List Action) := none
  message_history : Option (List Message) := none
deriving DecidableEq, Repr

/-- Modelled from the spec: a Task: an id, an optional
`EvaluationCriteria` and an optional `InitialState`. -/
structure Task where
  id : String
  evaluation_criteria : Option EvaluationCriteria := none
  initial_state : Option InitialState := none
deriving DecidableEq, Repr

/-- The `DBCheck` result constructed on line 196 of the evaluator:
combined match flag and the binary db reward. -/
structure DBCheck where
  db_match : Bool
  db_reward : Int
deriving DecidableEq, Repr

/-- The per-assertion outcome constructed on lines 207-211. -/
structure EnvAssertionCheck where
  env_assertion : EnvAssertion
  met : Bool
  reward : Int
deriving DecidableEq, Repr

/-- Modelled from the spec: the evaluator's output `RewardInfo`.  Fields
not passed at a construction site keep their default (`none`). -/
structure RewardInfo where
  reward : Int
  db_check : Option DBCheck := none
  env_assertions : Option (List EnvAssertionCheck) := none
  reward_basis : Option (List RewardType) := none
  reward_breakdown : Option (List (RewardType × Int)) := none
  info : Option (List (String × String)) := none
deriving DecidableEq, Repr

/-- The serialisable diff produced by `dict_diff_for_logging`
(src/tau2/utils/utils.py).  The `DeepDiff` library is external; its
serialised output is modelled opaquely as the pair of input
dictionaries. -/
inductive DiffOut where
  | expectedNone (predicted_keys : List String)
  | predictedNone (expected_keys : List String)
  | deepDiff (expected predicted : DbState)
deriving DecidableEq, Repr

/-- `dict_diff_for_logging` from src/tau2/utils/utils.py lines 71-92:
returns `none` when both inputs are `None`, a note when exactly one is,
and the (opaquely modelled) DeepDiff otherwise.  Note that Python's
`list(d.keys()) if d else []` yields `[]` for an empty dict. -/
def dict_diff_for_logging : Option DbState → Option DbState → Option DiffOut
  | none, none => none
  | none, some p =>
      some (.expectedNone (if p.isEmpty then [] else p.map Prod.fst))
  | some e, none =>
      some (.predictedNone (if e.isEmpty then [] else e.map Prod.fst))
  | some e, some p => some (.deepDiff e p)

/-- A log/telemetry event emitted during evaluation: loguru warnings and
debug lines, and the Logfire spans (emitted only when Logfire is
enabled).  Diagnostics are data here, never control flow. -/
inductive LogEvent where
  | warningGoldenAction (tool_name : String) (arguments : Args) (err : String)
  | debugAgentDbMismatch (task_id : String)
  | debugUserDbMismatch (task_id : String)
  | spanGoldAction (task_id : String) (step_index : Nat) (tool_name : String)
      (tool_arguments : Args) (agent_db_diff : Option DiffOut)
  | spanDbCheck (task_id : String) (db_match agent_db_match user_db_match : Bool)
      (expected_agent_db_hash predicted_agent_db_hash : String)
      (expected_user_db_hash predicted_user_db_hash : String)
      (agent_db_diff user_db_diff : Option DiffOut)
deriving DecidableEq, Repr

/-- The abstract Environment contract the evaluator consumes (spec §6),
over an explicit state type `σ`.  `construct (some b)` is
`environment_constructor(solo_mode=b)`, `construct none` the zero-argument
call used for the gold environment.  Fallible Python calls return
`Except String`; the hash getters are the deterministic digests of the
contract.  `hasTools s` models `env.tools is not None`. -/
structure EnvironmentImpl (σ : Type) where
  construct : Option Bool → σ
  set_state : σ → Option InitData → Option (List Action) → List Message →
      Except String σ
  make_tool_call : σ → String → Requestor → Args → Except String σ
  get_db_hash : σ → String
  get_user_db_hash : σ → String
  hasTools : σ → Bool
  get_agent_db_state : σ → Except String DbState
  get_user_db_state : σ → Except String DbState
  run_env_assertion : σ → EnvAssertion → Bool → Except String Bool

variable {σ : Type}

/-- Lines 80-86 of the evaluator: extract the tool calls of assistant
and user messages of the trajectory, in order.  (The result is bound to
`predicted_tool_calls` and never read afterwards.) -/
def extractPredictedToolCalls (full_trajectory : List Message) : List ToolCall :=
  full_trajectory.foldl
    (fun acc m =>
      if m.isAssistantOrUser && m.is_tool_call then
        acc ++ m.tool_calls.getD []
      else acc)
    []

/-- Lines 53-58: `initialization_data` taken from the task's initial
state when both are present, else `None`. -/
def taskInitializationData (task : Task) : Option InitData :=
  match task.initial_state with
  | some st => st.initialization_data
  | none => none

/-- Lines 60-65: `initialization_actions` taken from the task's initial
state when both are present, else `None`. -/
def taskInitializationActions (task : Task) : Option (List Action) :=
  match task.initial_state with
  | some st => st.initialization_actions
  | none => none

/-- Lines 67-72: the message history of the task's initial state,
defaulting to the empty list. -/
def taskMessageHistory (task : Task) : List Message :=
  match task.initial_state with
  | some st => st.message_history.getD []
  | none => []

/-- One iteration of the golden-action loop, lines 96-135:
take the (unguarded) before-action agent-db snapshot when the gold
environment has tools, apply the tool call catching any error into a
warning, then — best-effort, when Logfire is enabled — snapshot again,
compute the diff and emit the `agent_db_updated_gold` span, swallowing
any error of that block. -/
def goldStep (env : EnvironmentImpl σ) (task_id : String) (logfireEnabled : Bool)
    (s : σ) (step_index : Nat) (action : Action) :
    Except String (σ × List LogEvent) :=
  (if env.hasTools s then (env.get_agent_db_state s).map some
   else pure none) >>= fun agent_db_before_gold =>
    let r : σ × List LogEvent :=
      match env.make_tool_call s action.name action.requestor action.arguments with
      | .ok s' => (s', [])
      | .error e => (s, [LogEvent.warningGoldenAction action.name action.arguments e])
    let spanLog :=
      if logfireEnabled && agent_db_before_gold.isSome && env.hasTools r.1 then
        match env.get_agent_db_state r.1 with
        | .ok agent_db_after_gold =>
            [LogEvent.spanGoldAction task_id step_index action.name action.arguments
              (dict_diff_for_logging agent_db_before_gold (some agent_db_after_gold))]
        | .error _ => []
      else []
    pure (r.1, r.2 ++ spanLog)

/-- The golden-action replay loop of lines 96-135, threading the gold
environment state and accumulating the emitted log events.
`step_index` is the `enumerate` counter. -/
def runGoldenActions (env : EnvironmentImpl σ) (task_id : String)
    (logfireEnabled : Bool) :
    σ → List Action → Nat → Except String (σ × List LogEvent)
  | s, [], _ => pure (s, [])
  | s, action :: rest, step_index => do
      let p ← goldStep env task_id logfireEnabled s step_index action
      let q ← runGoldenActions env task_id logfireEnabled p.1 rest (step_index + 1)
      pure (q.1, p.2 ++ q.2)

/-- The outcome of the state comparison, lines 138-158. -/
structure DbComparison where
  agent_db_hash : String
  user_db_hash : String
  predicted_agent_db_hash : String
  predicted_user_db_hash : String
  agent_db_match : Bool
  user_db_match : Bool
  db_match : Bool
  db_reward : Int
  log : List LogEvent
deriving DecidableEq, Repr

/-- Lines 138-158: fetch the four digests, compare per partition, derive
the binary reward, and log which partition mismatched. -/
def compareDbs (env : EnvironmentImpl σ) (task_id : String)
    (gold predicted : σ) : DbComparison :=
  let agent_db_hash := env.get_db_hash gold
  let user_db_hash := env.get_user_db_hash gold
  let predicted_agent_db_hash := env.get_db_hash predicted
  let predicted_user_db_hash := env.get_user_db_hash predicted
  let agent_db_match := agent_db_hash == predicted_agent_db_hash
  let user_db_match := user_db_hash == predicted_user_db_hash
  if agent_db_match && user_db_match then
    { agent_db_hash, user_db_hash, predicted_agent_db_hash,
      predicted_user_db_hash, agent_db_match, user_db_match,
      db_match := true, db_reward := 1, log := [] }
  else
    { agent_db_hash, user_db_hash, predicted_agent_db_hash,
      predicted_user_db_hash, agent_db_match, user_db_match,
      db_match := false, db_reward := 0,
      log :=
        (if !agent_db_match then [LogEvent.debugAgentDbMismatch task_id] else [])
          ++ (if !user_db_match then [LogEvent.debugUserDbMismatch task_id] else []) }

/-- Lines 161-194: when Logfire is enabled, best-effort snapshot both
environments, compute the diffs and emit the `db_check` span; any error
inside the block is swallowed (`except Exception: pass`). -/
def dbCheckSpanLog (env : EnvironmentImpl σ) (task_id : String)
    (logfireEnabled : Bool) (gold predicted : σ) (c : DbComparison) :
    List LogEvent :=
  if logfireEnabled then
    match env.get_agent_db_state gold, env.get_user_db_state gold,
        env.get_agent_db_state predicted, env.get_user_db_state predicted with
    | .ok expected_agent_db, .ok expected_user_db,
        .ok predicted_agent_db, .ok predicted_user_db =>
        [LogEvent.spanDbCheck task_id c.db_match c.agent_db_match c.user_db_match
          c.agent_db_hash c.predicted_agent_db_hash
          c.user_db_hash c.predicted_user_db_hash
          (dict_diff_for_logging (some expected_agent_db) (some predicted_agent_db))
          (dict_diff_for_logging (some expected_user_db) (some predicted_user_db))]
    | _, _, _, _ => []
  else []

/-- Lines 202-213: run each env assertion against the predicted
environment with `raise_assertion_error=False` (the `false` literal
below), building an `EnvAssertionCheck` with reward 1.0 when met and
0.0 otherwise.  An error returned by the environment call itself is not
caught here, exactly as in the source. -/
def runAssertions (env : EnvironmentImpl σ) (predicted : σ) :
    List EnvAssertion → Except String (List EnvAssertionCheck)
  | [] => pure []
  | env_assertion :: rest => do
      let success ← env.run_env_assertion predicted env_assertion false
      let res : EnvAssertionCheck :=
        { env_assertion, met := success, reward := if success then 1 else 0 }
      let others ← runAssertions env predicted rest
      pure (res :: others)

/-- Line 201 and 213: `env_assertion_reward` accumulated as the product
of the per-assertion rewards, starting from 1.0. -/
def assertionReward (checks : List EnvAssertionCheck) : Int :=
  checks.foldl (fun acc c => acc * c.reward) 1

/-- Lines 215-222: the reward composer.  Starting from reward 1.0 and an
empty breakdown, multiply in the db reward iff `RewardType.DB` is in the
reward basis and the aggregate assertion reward iff
`RewardType.ENV_ASSERTION` is, recording each selected signal in the
breakdown. -/
def composeReward (db_reward env_assertion_reward : Int)
    (reward_basis : List RewardType) : Int × List (RewardType × Int) :=
  let reward : Int := 1
  let reward_breakdown : List (RewardType × Int) := []
  let (reward, reward_breakdown) :=
    if RewardType.DB ∈ reward_basis then
      (reward * db_reward, reward_breakdown ++ [(RewardType.DB, db_reward)])
    else (reward, reward_breakdown)
  let (reward, reward_breakdown) :=
    if RewardType.ENV_ASSERTION ∈ reward_basis then
      (reward * env_assertion_reward,
        reward_breakdown ++ [(RewardType.ENV_ASSERTION, env_assertion_reward)])
    else (reward, reward_breakdown)
  (reward, reward_breakdown)

/-- Lines 53-230: the full-evaluation path of `calculate_reward`, taken
when the task has evaluation criteria and at least one of `actions` /
`env_assertions` is not `None`.  Returns the `RewardInfo` together with
the emitted log events; a `.error` models an uncaught Python
exception. -/
def fullEval (env : EnvironmentImpl σ) (task : Task)
    (crit : EvaluationCriteria) (full_trajectory : List Message)
    (solo_mode : Bool) (logfireEnabled : Bool) :
    Except String (RewardInfo × List LogEvent) := do
  let initialization_data := taskInitializationData task
  let initialization_actions := taskInitializationActions task
  let message_history := taskMessageHistory task
  let predicted_environment ←
    env.set_state (env.construct (some solo_mode)) initialization_data
      initialization_actions full_trajectory
  let _predicted_tool_calls := extractPredictedToolCalls full_trajectory
  let gold_seeded ←
    env.set_state (env.construct none) initialization_data
      initialization_actions message_history
  let golden_actions := crit.actions.getD []
  let gr ← runGoldenActions env task.id logfireEnabled gold_seeded golden_actions 0
  let gold_environment := gr.1
  let c := compareDbs env task.id gold_environment predicted_environment
  let spanLog :=
    dbCheckSpanLog env task.id logfireEnabled gold_environment
      predicted_environment c
  let db_check : DBCheck := { db_match := c.db_match, db_reward := c.db_reward }
  let env_assertions := crit.env_assertions.getD []
  let env_assertion_checks ← runAssertions env predicted_environment env_assertions
  let env_assertion_reward := assertionReward env_assertion_checks
  let rb := composeReward c.db_reward env_assertion_reward crit.reward_basis
  pure
    ({ reward := rb.1
       db_check := some db_check
       env_assertions := some env_assertion_checks
       reward_basis := some crit.reward_basis
       reward_breakdown := some rb.2 },
      gr.2 ++ c.log ++ spanLog)

/-- `EnvironmentEvaluator.calculate_reward` (lines 19-230).  The two
shortcut returns of lines 39-51 mirror the source: reward 1.0 with an
info note when the task has no evaluation criteria, and reward 1.0 with
a trivially matched `DBCheck` when the criteria's `actions` and
`env_assertions` are both `None`; otherwise the full-evaluation path
runs.  `logfireEnabled` models the global `is_logfire_enabled()`. -/
def calculate_reward (env : EnvironmentImpl σ) (task : Task)
    (full_trajectory : List Message) (solo_mode : Bool)
    (logfireEnabled : Bool) : Except String (RewardInfo × List LogEvent) :=
  match task.evaluation_criteria with
  | none =>
      pure
        ({ reward := 1, info := some [("note", "No evaluation criteria")] }, [])
  | some crit =>
      if crit.actions = none ∧ crit.env_assertions = none then
        pure
          ({ reward := 1
             db_check := some { db_match := true, db_reward := 1 }
             info := some [("note", "No expected actions or env assertions")] },
            [])
      else
        fullEval env task crit full_trajectory solo_mode logfireEnabled

/-- The full-evaluation path with the construction of
`predicted_tool_calls` (lines 80-86) removed, otherwise identical to
`fullEval`.  Used to state that the extracted list is dead: the
evaluator's result never depends on it. -/
def fullEvalNoExtraction (env : EnvironmentImpl σ) (task : Task)
    (crit : EvaluationCriteria) (full_trajectory : List Message)
    (solo_mode : Bool) (logfireEnabled : Bool) :
    Except String (RewardInfo × List LogEvent) := do
  let initialization_data := taskInitializationData task
  let initialization_actions := taskInitializationActions task
  let message_history := taskMessageHistory task
  let predicted_environment ←
    env.set_state (env.construct (some solo_mode)) initialization_data
      initialization_actions full_trajectory
  let gold_seeded ←
    env.set_state (env.construct none) initialization_data
      initialization_actions message_history
  let golden_actions := crit.actions.getD []
  let gr ← runGoldenActions env task.id logfireEnabled gold_seeded golden_actions 0
  let gold_environment := gr.1
  let c := compareDbs env task.id gold_environment predicted_environment
  let spanLog :=
    dbCheckSpanLog env task.id logfireEnabled gold_environment
      predicted_environment c
  let db_check : DBCheck := { db_match := c.db_match, db_reward := c.db_reward }
  let env_assertions := crit.env_assertions.getD []
  let env_assertion_checks ← runAssertions env predicted_environment env_assertions
  let env_assertion_reward := assertionReward env_assertion_checks
  let rb := composeReward c.db_reward env_assertion_reward crit.reward_basis
  pure
    ({ reward := rb.1
       db_check := some db_check
       env_assertions := some env_assertion_checks
       reward_basis := some crit.reward_basis
       reward_breakdown := some rb.2 },
      gr.2 ++ c.log ++ spanLog)

/-- `calculate_reward` with the trajectory-scanning loop removed (the
comparison target for the dead-code claim). -/
def calculate_reward_noExtraction (env : EnvironmentImpl σ) (task : Task)
    (full_trajectory : List Message) (solo_mode : Bool)
    (logfireEnabled : Bool) : Except String (RewardInfo × List LogEvent) :=
  match task.evaluation_criteria with
  | none =>
      pure
        ({ reward := 1, info := some [("note", "No evaluation criteria")] }, [])
  | some crit =>
      if crit.actions = none ∧ crit.env_assertions = none then
        pure
          ({ reward := 1
             db_check := some { db_match := true, db_reward := 1 }
             info := some [("note", "No expected actions or env assertions")] },
            [])
      else
        fullEvalNoExtraction env task crit full_trajectory solo_mode logfireEnabled

/-! ## Bisimulation between two environment implementations -/

/-- Two fallible results agree up to a relation on the success values:
both fail with the same message, or both succeed with related values. -/
def exceptRel (R : α → β → Prop) : Except String α → Except String β → Prop
  | .ok a, .ok b => R a b
  | .error e, .error e' => e = e'
  | _, _ => False

/-- Two environment implementations behave identically on identical call
sequences: a relation `R` on their states is preserved by construction,
seeding and tool calls (with equal error messages on failure), and
related states are observationally equal under the digest getters, the
snapshot getters, the tools check and assertion evaluation. -/
structure EnvBisim {σ₁ σ₂ : Type} (env₁ : EnvironmentImpl σ₁)
    (env₂ : EnvironmentImpl σ₂) (R : σ₁ → σ₂ → Prop) : Prop where
  construct : ∀ b, R (env₁.construct b) (env₂.construct b)
  set_state : ∀ {s₁ s₂} d a m, R s₁ s₂ →
    exceptRel R (env₁.set_state s₁ d a m) (env₂.set_state s₂ d a m)
  make_tool_call : ∀ {s₁ s₂} n r args, R s₁ s₂ →
    exceptRel R (env₁.make_tool_call s₁ n r args) (env₂.make_tool_call s₂ n r args)
  get_db_hash : ∀ {s₁ s₂}, R s₁ s₂ → env₁.get_db_hash s₁ = env₂.get_db_hash s₂
  get_user_db_hash : ∀ {s₁ s₂}, R s₁ s₂ →
    env₁.get_user_db_hash s₁ = env₂.get_user_db_hash s₂
  hasTools : ∀ {s₁ s₂}, R s₁ s₂ → env₁.hasTools s₁ = env₂.hasTools s₂
  get_agent_db_state : ∀ {s₁ s₂}, R s₁ s₂ →
    env₁.get_agent_db_state s₁ = env₂.get_agent_db_state s₂
  get_user_db_state : ∀ {s₁ s₂}, R s₁ s₂ →
    env₁.get_user_db_state s₁ = env₂.get_user_db_state s₂
  run_env_assertion : ∀ {s₁ s₂} a f, R s₁ s₂ →
    env₁.run_env_assertion s₁ a f = env₂.run_env_assertion s₂ a f

/-! ## A small concrete environment for witnesses -/

/-- State of the concrete test environment: the length of the message
history it was last seeded with and the names of the tool calls applied
since. -/
structure TestState where
  msgCount : Nat
  ops : List String
deriving DecidableEq, Repr

/-- A minimal concrete instance of the environment contract: seeding
records the message-history length, tool calls append their name (the
tool `"bad"` always fails), the agent-db digest summarises both, and
assertion `"fail"` is never met. -/
def testEnv : EnvironmentImpl TestState where
  construct := fun _ => ⟨0, []⟩
  set_state := fun s _ _ m => .ok ⟨m.length, s.ops⟩
  make_tool_call := fun s n _ _ =>
    if n = "bad" then .error "unknown tool bad" else .ok ⟨s.msgCount, s.ops ++ [n]⟩
  get_db_hash := fun s => toString s.msgCount ++ "|" ++ String.intercalate "," s.ops
  get_user_db_hash := fun _ => "user"
  hasTools := fun _ => false
  get_agent_db_state := fun s => .ok [("n", toString s.msgCount)]
  get_user_db_state := fun _ => .ok []
  run_env_assertion := fun _ a _ => .ok (a != "fail")

/-- A variant of `testEnv` whose seeding always fails. -/
def failSeedEnv : EnvironmentImpl TestState :=
  { testEnv with set_state := fun _ _ _ _ => .error "bad seed" }

/-- A variant of `testEnv` that reports tools but whose agent-db
snapshot getter always fails: the diagnostic before-action snapshot of
the golden-action loop then raises. -/
def badSnapshotEnv : EnvironmentImpl TestState :=
  { testEnv with
    hasTools := fun _ => true
    get_agent_db_state := fun _ => .error "snapshot failed" }

/-- The state of `testEnvSwapped`: the same data as `TestState` with the
components in the opposite order. -/
structure TestStateSw where
  ops : List String
  msgCount : Nat
deriving DecidableEq, Repr

/-- `testEnv` re-implemented over the mirrored state representation:
observationally identical, structurally different. -/
def testEnvSwapped : EnvironmentImpl TestStateSw where
  construct := fun _ => ⟨[], 0⟩
  set_state := fun s _ _ m => .ok ⟨s.ops, m.length⟩
  make_tool_call := fun s n _ _ =>
    if n = "bad" then .error "unknown tool bad" else .ok ⟨s.ops ++ [n], s.msgCount⟩
  get_db_hash := fun s => toString s.msgCount ++ "|" ++ String.intercalate "," s.ops
  get_user_db_hash := fun _ => "user"
  hasTools := fun _ => false
  get_agent_db_state := fun s => .ok [("n", toString s.msgCount)]
  get_user_db_state := fun _ => .ok []
  run_env_assertion := fun _ a _ => .ok (a != "fail")

/-- The simulation relation between `testEnv` and `testEnvSwapped`
states: same message count, same applied operations. -/
def testRel (s₁ : TestState) (s₂ : TestStateSw) : Prop :=
  s₁.msgCount = s₂.msgCount ∧ s₁.ops = s₂.ops

/-- Criteria used by concrete witnesses: one golden action, two env
assertions (`"ok1"` met, `"fail"` unmet), both signal kinds in the
reward basis. -/
def witnessCriteria : EvaluationCriteria :=
  { actions := some [Action.mk "a" .agent []]
    env_assertions := some ["ok1", "fail"]
    reward_basis := [RewardType.DB, RewardType.ENV_ASSERTION] }

/-- Task used by concrete witnesses. -/
def witnessTask : Task :=
  { id := "t", evaluation_criteria := some witnessCriteria, initial_state := none }

/-- The `RewardInfo` that `calculate_reward testEnv witnessTask [] false
false` evaluates to. -/
def witnessRewardInfo : RewardInfo :=
  { reward := 0
    db_check := some { db_match := false, db_reward := 0 }
    env_assertions := some
      [{ env_assertion := "ok1", met := true, reward := 1 },
       { env_assertion := "fail", met := false, reward := 0 }]
    reward_basis := some [RewardType.DB, RewardType.ENV_ASSERTION]
    reward_breakdown := some
      [(RewardType.DB, 0), (RewardType.ENV_ASSERTION, 0)] }

/-- The log that `calculate_reward testEnv witnessTask [] false false`
evaluates to. -/
def witnessLog : List LogEvent := [LogEvent.debugAgentDbMismatch "t"]

/-! ## Theorems -/

deriving instance DecidableEq for Except

section ExceptLemmas

variable {α β : Type}

/-- Reduction of the monadic bind on a success value. -/
theorem exceptBind_ok (a : α) (f : α → Except String β) :
    (Except.ok a >>= f) = f a := rfl

/-- Reduction of the monadic bind on an error value. -/
theorem exceptBind_error (e : String) (f : α → Except String β) :
    ((Except.error e : Except String α) >>= f) = .error e := rfl

/-- Reduction of `Functor.map` on a success value. -/
theorem exceptMap_ok (a : α) (f : α → β) :
    (f <$> (Except.ok a : Except String α)) = .ok (f a) := rfl

/-- Reduction of `Functor.map` on an error value. -/
theorem exceptMap_error (e : String) (f : α → β) :
    (f <$> (Except.error e : Except String α)) = .error e := rfl

/-- `pure` of the `Except` monad is `Except.ok`. -/
theorem exceptPure (a : α) : (pure a : Except String α) = .ok a := rfl

end ExceptLemmas

/-- Claim C9: for every Task whose `evaluation_criteria` is `None`,
`calculate_reward` returns reward exactly 1.0 (with only the info note)
regardless of the trajectory, the environment and the flags; the result
is a constant, so no environment call is made, no states are compared
and no assertion is run. -/
theorem no_criteria_shortcut (env : EnvironmentImpl σ) (task : Task)
    (full_trajectory : List Message) (solo_mode logfireEnabled : Bool)
    (h : task.evaluation_criteria = none) :
    calculate_reward env task full_trajectory solo_mode logfireEnabled =
      .ok ({ reward := 1, info := some [("note", "No evaluation criteria")] }, []) := by
  simp [calculate_reward, h, exceptPure]

/-- Witness for `no_criteria_shortcut` at a concrete task, trajectory
and environment. -/
theorem no_criteria_shortcut_witness :
    (Task.mk "t" none none).evaluation_criteria = none ∧
    calculate_reward testEnv (Task.mk "t" none none)
        [Message.user (some [ToolCall.mk "x" []])] true false =
      .ok ({ reward := 1, info := some [("note", "No evaluation criteria")] }, []) :=
  ⟨rfl,
    no_criteria_shortcut testEnv (Task.mk "t" none none)
      [Message.user (some [ToolCall.mk "x" []])] true false rfl⟩

/-- Counterexample to claim C1 as stated: a Task whose criteria has
`actions = some []` and `env_assertions = some []` (both present but
empty) does not take the trivial shortcut — the full pipeline runs, and
here the predicted environment (seeded with a one-message trajectory)
hashes differently from the gold environment (seeded with the empty
initial history), so the reward is 0 and `db_match` is `false`, not
1.0/`true` as the claim requires. -/
theorem trivial_criteria_empty_lists_cex :
    calculate_reward testEnv
        (Task.mk "t"
          (some (EvaluationCriteria.mk (some []) (some []) [RewardType.DB]))
          none)
        [Message.user none] false false =
      .ok
        ({ reward := 0
           db_check := some { db_match := false, db_reward := 0 }
           env_assertions := some []
           reward_basis := some [RewardType.DB]
           reward_breakdown := some [(RewardType.DB, 0)] },
          [LogEvent.debugAgentDbMismatch "t"]) := by
  decide

/-- Claim C1 (amended): the trivial shortcut fires exactly when both
`actions` and `env_assertions` are absent (`None`, line 46 of the
evaluator) — not when they are present but empty.  In that case
`calculate_reward` returns reward 1.0 and a trivially matched
`DBCheck`, without touching the environment. -/
theorem trivial_criteria_shortcut (env : EnvironmentImpl σ) (task : Task)
    (full_trajectory : List Message) (solo_mode logfireEnabled : Bool)
    (crit : EvaluationCriteria) (h : task.evaluation_criteria = some crit)
    (ha : crit.actions = none) (he : crit.env_assertions = none) :
    calculate_reward env task full_trajectory solo_mode logfireEnabled =
      .ok
        ({ reward := 1
           db_check := some { db_match := true, db_reward := 1 }
           info := some [("note", "No expected actions or env assertions")] },
          []) := by
  simp [calculate_reward, h, ha, he, exceptPure]

/-- Witness for `trivial_criteria_shortcut` at a concrete task and
environment. -/
theorem trivial_criteria_shortcut_witness :
    (Task.mk "t" (some (EvaluationCriteria.mk none none [RewardType.DB]))
        none).evaluation_criteria =
      some (EvaluationCriteria.mk none none [RewardType.DB]) ∧
    calculate_reward testEnv
        (Task.mk "t" (some (EvaluationCriteria.mk none none [RewardType.DB])) none)
        [Message.user none] false true =
      .ok
        ({ reward := 1
           db_check := some { db_match := true, db_reward := 1 }
           info := some [("note", "No expected actions or env assertions")] },
          []) :=
  ⟨rfl,
    trivial_criteria_shortcut testEnv
      (Task.mk "t" (some (EvaluationCriteria.mk none none [RewardType.DB])) none)
      [Message.user none] false true
      (EvaluationCriteria.mk none none [RewardType.DB]) rfl rfl rfl⟩

/-- Claim C10: the list `predicted_tool_calls` extracted from the
assistant and user messages of the trajectory is dead — removing the
extraction loop leaves the result of `calculate_reward` unchanged on
every input. -/
theorem predicted_tool_calls_unused (env : EnvironmentImpl σ) (task : Task)
    (full_trajectory : List Message) (solo_mode logfireEnabled : Bool) :
    calculate_reward env task full_trajectory solo_mode logfireEnabled =
      calculate_reward_noExtraction env task full_trajectory solo_mode
        logfireEnabled := by
  unfold calculate_reward calculate_reward_noExtraction fullEval fullEvalNoExtraction
  rfl

/-- Claim C8: a seeding failure propagates out of `calculate_reward` as
a hard failure: on the full-evaluation path, if `set_state` fails for
the predicted environment the evaluator returns that very error, and if
the predicted seeding succeeds but the gold seeding fails the gold error
is returned; no `RewardInfo` is produced. -/
theorem seeding_error_propagates (env : EnvironmentImpl σ) (task : Task)
    (full_trajectory : List Message) (solo_mode logfireEnabled : Bool)
    (crit : EvaluationCriteria) (e : String)
    (h : task.evaluation_criteria = some crit)
    (hne : ¬(crit.actions = none ∧ crit.env_assertions = none)) :
    (env.set_state (env.construct (some solo_mode)) (taskInitializationData task)
        (taskInitializationActions task) full_trajectory = .error e →
      calculate_reward env task full_trajectory solo_mode logfireEnabled =
        .error e) ∧
    (∀ p, env.set_state (env.construct (some solo_mode)) (taskInitializationData task)
        (taskInitializationActions task) full_trajectory = .ok p →
      env.set_state (env.construct none) (taskInitializationData task)
          (taskInitializationActions task) (taskMessageHistory task) = .error e →
      calculate_reward env task full_trajectory solo_mode logfireEnabled =
        .error e) := by
  constructor
  · intro hs
    simp [calculate_reward, h, hne, fullEval, hs, exceptBind_error]
  · intro p hp hg
    simp [calculate_reward, h, hne, fullEval, hp, hg, exceptBind_ok, exceptBind_error]

/-- Witness for `seeding_error_propagates`: with the always-failing
seeder, evaluation of a task with one golden action fails hard with the
seed error. -/
theorem seeding_error_propagates_witness :
    calculate_reward failSeedEnv
        (Task.mk "t"
          (some (EvaluationCriteria.mk (some [Action.mk "a" .agent []]) none
            [RewardType.DB]))
          none)
        [] false false =
      .error "bad seed" :=
  (seeding_error_propagates failSeedEnv
      (Task.mk "t"
        (some (EvaluationCriteria.mk (some [Action.mk "a" .agent []]) none
          [RewardType.DB]))
        none)
      [] false false
      (EvaluationCriteria.mk (some [Action.mk "a" .agent []]) none [RewardType.DB])
      "bad seed" rfl (by decide)).1 rfl

/-- Claim C5: a failing golden action never aborts the replay loop: if
`make_tool_call` fails for the head action (and the unguarded diagnostic
before-snapshot itself succeeds when tools are present), the error is
caught and logged as a warning, the gold state is left unchanged, and
the loop result is exactly that of replaying the remaining actions, with
the warning (and possibly a diagnostic span) prepended to the log. -/
theorem golden_action_failure_skipped (env : EnvironmentImpl σ) (task_id : String)
    (logfireEnabled : Bool) (s : σ) (action : Action) (rest : List Action)
    (step_index : Nat) (e : String)
    (hfail : env.make_tool_call s action.name action.requestor action.arguments =
      .error e)
    (hsnap : env.hasTools s = true → (env.get_agent_db_state s).isOk = true) :
    ∃ spanLog,
      runGoldenActions env task_id logfireEnabled s (action :: rest) step_index =
        (runGoldenActions env task_id logfireEnabled s rest (step_index + 1)).map
          (fun p =>
            (p.1,
              ([LogEvent.warningGoldenAction action.name action.arguments e]
                ++ spanLog) ++ p.2)) := by
  have hstep : ∃ spanLog, goldStep env task_id logfireEnabled s step_index action =
      .ok (s, [LogEvent.warningGoldenAction action.name action.arguments e]
        ++ spanLog) := by
    cases hT : env.hasTools s with
    | false =>
        refine ⟨[], ?_⟩
        simp [goldStep, hT, hfail, exceptBind_ok, exceptPure]
    | true =>
        have hok := hsnap hT
        cases hg : env.get_agent_db_state s with
        | error e' => rw [hg] at hok; simp [Except.isOk, Except.toBool] at hok
        | ok d =>
            refine ⟨if logfireEnabled then
              [LogEvent.spanGoldAction task_id step_index action.name
                action.arguments (dict_diff_for_logging (some d) (some d))]
              else [], ?_⟩
            cases logfireEnabled <;>
              simp [goldStep, hT, hg, hfail, exceptBind_ok, exceptPure, Except.map]
  obtain ⟨spanLog, hstep⟩ := hstep
  refine ⟨spanLog, ?_⟩
  rw [runGoldenActions, hstep]
  rw [exceptBind_ok]
  cases hrest : runGoldenActions env task_id logfireEnabled s rest (step_index + 1) with
  | error e' => simp [hrest, exceptBind_error, Except.map]
  | ok p => cases p with
    | mk s'' log₂ => simp [hrest, exceptBind_ok, exceptPure, Except.map]

/-- Witness for `golden_action_failure_skipped`: the failing tool
`"bad"` is skipped and the remaining action is still replayed. -/
theorem golden_action_failure_skipped_witness :
    testEnv.make_tool_call ⟨0, []⟩ "bad" .agent [] = .error "unknown tool bad" ∧
    ∃ spanLog,
      runGoldenActions testEnv "t" false ⟨0, []⟩
          [Action.mk "bad" .agent [], Action.mk "a" .agent []] 0 =
        (runGoldenActions testEnv "t" false ⟨0, []⟩ [Action.mk "a" .agent []] 1).map
          (fun p =>
            (p.1,
              ([LogEvent.warningGoldenAction "bad" [] "unknown tool bad"]
                ++ spanLog) ++ p.2)) :=
  ⟨rfl,
    golden_action_failure_skipped testEnv "t" false ⟨0, []⟩
      (Action.mk "bad" .agent []) [Action.mk "a" .agent []] 0 "unknown tool bad"
      rfl (by decide)⟩

/-- Inversion of a successful `Except` bind: the first step succeeded
and the continuation succeeded on its value. -/
theorem exists_ok_of_bind_eq_ok {α β : Type} {x : Except String α}
    {f : α → Except String β} {b : β} (h : (x >>= f) = .ok b) :
    ∃ a, x = .ok a ∧ f a = .ok b := by
  cases x with
  | error e => rw [exceptBind_error] at h; exact absurd h (by simp)
  | ok a => exact ⟨a, rfl, by rwa [exceptBind_ok] at h⟩

/-- On the full-evaluation path, `calculate_reward` is `fullEval`. -/
theorem calculate_reward_full (env : EnvironmentImpl σ) (task : Task)
    (full_trajectory : List Message) (solo_mode logfireEnabled : Bool)
    (crit : EvaluationCriteria) (h : task.evaluation_criteria = some crit)
    (hne : ¬(crit.actions = none ∧ crit.env_assertions = none)) :
    calculate_reward env task full_trajectory solo_mode logfireEnabled =
      fullEval env task crit full_trajectory solo_mode logfireEnabled := by
  simp [calculate_reward, h, hne]

/-- Inversion of a successful full evaluation: the two seedings and the
golden replay succeeded, the assertions all evaluated, and the returned
`RewardInfo` is assembled from `compareDbs`, `runAssertions` and
`composeReward` exactly as in the source. -/
theorem fullEval_ok_elim {env : EnvironmentImpl σ} {task : Task}
    {crit : EvaluationCriteria} {traj : List Message} {solo lf : Bool}
    {ri : RewardInfo} {log : List LogEvent}
    (h : fullEval env task crit traj solo lf = .ok (ri, log)) :
    ∃ predicted gold0 gold goldLog checks,
      env.set_state (env.construct (some solo)) (taskInitializationData task)
        (taskInitializationActions task) traj = .ok predicted ∧
      env.set_state (env.construct none) (taskInitializationData task)
        (taskInitializationActions task) (taskMessageHistory task) = .ok gold0 ∧
      runGoldenActions env task.id lf gold0 (crit.actions.getD []) 0 =
        .ok (gold, goldLog) ∧
      runAssertions env predicted (crit.env_assertions.getD []) = .ok checks ∧
      ri = { reward := (composeReward (compareDbs env task.id gold predicted).db_reward
                 (assertionReward checks) crit.reward_basis).1
             db_check := some { db_match := (compareDbs env task.id gold predicted).db_match
                                db_reward := (compareDbs env task.id gold predicted).db_reward }
             env_assertions := some checks
             reward_basis := some crit.reward_basis
             reward_breakdown := some (composeReward
               (compareDbs env task.id gold predicted).db_reward
               (assertionReward checks) crit.reward_basis).2 } ∧
      log = goldLog ++ (compareDbs env task.id gold predicted).log ++
        dbCheckSpanLog env task.id lf gold predicted
          (compareDbs env task.id gold predicted) := by
  simp only [fullEval] at h
  obtain ⟨predicted, hp, h⟩ := exists_ok_of_bind_eq_ok h
  obtain ⟨gold0, hg, h⟩ := exists_ok_of_bind_eq_ok h
  obtain ⟨gr, hr, h⟩ := exists_ok_of_bind_eq_ok h
  obtain ⟨checks, ha, h⟩ := exists_ok_of_bind_eq_ok h
  rw [exceptPure] at h
  injection h with h
  injection h with h₁ h₂
  exact ⟨predicted, gold0, gr.1, gr.2, checks, hp, hg, by rw [hr],
    ha, h₁.symm, by rw [← h₂]⟩

/-- The combined match flag of the comparator is the conjunction of the
two per-partition digest equalities (lines 142-149). -/
theorem compareDbs_db_match (env : EnvironmentImpl σ) (task_id : String)
    (gold predicted : σ) :
    (compareDbs env task_id gold predicted).db_match =
      ((env.get_db_hash gold == env.get_db_hash predicted)
        && (env.get_user_db_hash gold == env.get_user_db_hash predicted)) := by
  unfold compareDbs
  by_cases hc : (env.get_db_hash gold == env.get_db_hash predicted)
      && (env.get_user_db_hash gold == env.get_user_db_hash predicted) <;>
    simp [hc]

/-- The comparator reward is 1 on a combined match and 0 otherwise
(lines 144-149): binary, with no intermediate value. -/
theorem compareDbs_db_reward (env : EnvironmentImpl σ) (task_id : String)
    (gold predicted : σ) :
    (compareDbs env task_id gold predicted).db_reward =
      (if (compareDbs env task_id gold predicted).db_match then 1 else 0) := by
  unfold compareDbs
  by_cases hc : (env.get_db_hash gold == env.get_db_hash predicted)
      && (env.get_user_db_hash gold == env.get_user_db_hash predicted) <;>
    simp [hc]

/-- Claim C3: in the full-evaluation path the state-match signal is
binary: the returned `db_check` holds `db_match` true exactly when both
the agent and the user digests of the gold environment equal those of
the predicted environment, and `db_reward` is 1 on a combined match and
0 otherwise — never an intermediate value for a one-partition match. -/
theorem db_check_binary (env : EnvironmentImpl σ) (task : Task)
    (full_trajectory : List Message) (solo_mode logfireEnabled : Bool)
    (crit : EvaluationCriteria) (ri : RewardInfo) (log : List LogEvent)
    (h : task.evaluation_criteria = some crit)
    (hne : ¬(crit.actions = none ∧ crit.env_assertions = none))
    (hok : calculate_reward env task full_trajectory solo_mode logfireEnabled =
      .ok (ri, log)) :
    ∃ predicted gold,
      (∃ gold0 goldLog,
        env.set_state (env.construct (some solo_mode)) (taskInitializationData task)
          (taskInitializationActions task) full_trajectory = .ok predicted ∧
        env.set_state (env.construct none) (taskInitializationData task)
          (taskInitializationActions task) (taskMessageHistory task) = .ok gold0 ∧
        runGoldenActions env task.id logfireEnabled gold0 (crit.actions.getD []) 0 =
          .ok (gold, goldLog)) ∧
      ri.db_check = some
        { db_match := (env.get_db_hash gold == env.get_db_hash predicted)
            && (env.get_user_db_hash gold == env.get_user_db_hash predicted)
          db_reward :=
            if (env.get_db_hash gold == env.get_db_hash predicted)
                && (env.get_user_db_hash gold == env.get_user_db_hash predicted)
            then 1 else 0 } := by
  rw [calculate_reward_full env task full_trajectory solo_mode logfireEnabled crit
    h hne] at hok
  obtain ⟨predicted, gold0, gold, goldLog, checks, hp, hg, hr, ha, hri, hlog⟩ :=
    fullEval_ok_elim hok
  refine ⟨predicted, gold, ⟨gold0, goldLog, hp, hg, hr⟩, ?_⟩
  rw [hri]
  simp only
  rw [compareDbs_db_reward, compareDbs_db_match]

/-- Inversion of a successful assertion run: there is one check per
assertion, in order, each holding the boolean the environment returned
for that assertion under `raise_assertion_error = false`, with reward 1
when met and 0 otherwise. -/
theorem runAssertions_ok_elim {env : EnvironmentImpl σ} {s : σ}
    {asserts : List EnvAssertion} {checks : List EnvAssertionCheck}
    (h : runAssertions env s asserts = .ok checks) :
    checks.map (fun c => c.env_assertion) = asserts ∧
    ∀ c ∈ checks, env.run_env_assertion s c.env_assertion false = .ok c.met ∧
      c.reward = (if c.met then 1 else 0) := by
  induction asserts generalizing checks with
  | nil =>
      rw [runAssertions, exceptPure] at h
      injection h with h
      subst h
      simp
  | cons a rest ih =>
      rw [runAssertions] at h
      obtain ⟨b, hb, h⟩ := exists_ok_of_bind_eq_ok h
      obtain ⟨others, hothers, h⟩ := exists_ok_of_bind_eq_ok h
      rw [exceptPure] at h
      injection h with h
      subst h
      obtain ⟨hmap, hall⟩ := ih hothers
      refine ⟨by simp [hmap], ?_⟩
      intro c hc
      rcases List.mem_cons.mp hc with hc | hc
      · subst hc
        exact ⟨hb, rfl⟩
      · exact hall c hc

/-- Shifting the accumulator out of the reward-product fold. -/
theorem assertionReward_foldl_shift (checks : List EnvAssertionCheck) (acc : Int) :
    checks.foldl (fun a c => a * c.reward) acc =
      acc * checks.foldl (fun a c => a * c.reward) 1 := by
  induction checks generalizing acc with
  | nil => simp
  | cons c cs ih =>
      simp only [List.foldl_cons]
      rw [ih (acc * c.reward), ih (1 * c.reward)]
      ring

/-- When every check's reward is the 0/1 indicator of being met, the
product of the rewards is 1 iff every assertion was met.  In particular
a single unmet assertion drives the aggregate to 0 and an empty check
list yields 1. -/
theorem assertionReward_binary (checks : List EnvAssertionCheck)
    (h : ∀ c ∈ checks, c.reward = (if c.met then 1 else 0)) :
    assertionReward checks = (if checks.all (fun c => c.met) then 1 else 0) := by
  induction checks with
  | nil => simp [assertionReward]
  | cons c cs ih =>
      have hc := h c (by simp)
      have ih' := ih (fun c hc => h c (by simp [hc]))
      unfold assertionReward at ih' ⊢
      simp only [List.foldl_cons]
      rw [assertionReward_foldl_shift, ih']
      by_cases hm : c.met <;> simp [hc, hm]

/-- Claim C4: on a successful full evaluation, each env assertion was
evaluated against the predicted environment with the
`raise_assertion_error` flag `false`, its check records the returned
boolean as `met` with per-assertion reward 1 or 0, the aggregate
assertion reward is the product of the per-assertion rewards — 0 as
soon as one assertion is unmet, 1 when all are met — and an empty
assertion list yields aggregate reward exactly 1. -/
theorem assertion_runner_contract (env : EnvironmentImpl σ) (task : Task)
    (full_trajectory : List Message) (solo_mode logfireEnabled : Bool)
    (crit : EvaluationCriteria) (ri : RewardInfo) (log : List LogEvent)
    (h : task.evaluation_criteria = some crit)
    (hne : ¬(crit.actions = none ∧ crit.env_assertions = none))
    (hok : calculate_reward env task full_trajectory solo_mode logfireEnabled =
      .ok (ri, log)) :
    ∃ predicted checks,
      env.set_state (env.construct (some solo_mode)) (taskInitializationData task)
        (taskInitializationActions task) full_trajectory = .ok predicted ∧
      ri.env_assertions = some checks ∧
      checks.map (fun c => c.env_assertion) = crit.env_assertions.getD [] ∧
      (∀ c ∈ checks,
        env.run_env_assertion predicted c.env_assertion false = .ok c.met ∧
        c.reward = (if c.met then 1 else 0)) ∧
      assertionReward checks = (if checks.all (fun c => c.met) then 1 else 0) ∧
      (crit.env_assertions = some [] ∨ crit.env_assertions = none →
        assertionReward checks = 1) := by
  rw [calculate_reward_full env task full_trajectory solo_mode logfireEnabled crit
    h hne] at hok
  obtain ⟨predicted, gold0, gold, goldLog, checks, hp, hg, hr, ha, hri, hlog⟩ :=
    fullEval_ok_elim hok
  obtain ⟨hmap, hall⟩ := runAssertions_ok_elim ha
  refine ⟨predicted, checks, hp, by rw [hri], hmap,
    (fun c hc => hall c hc), assertionReward_binary checks (fun c hc => (hall c hc).2), ?_⟩
  intro hempty
  have hnil : checks = [] := by
    have : checks.map (fun c => c.env_assertion) = [] := by
      rcases hempty with he | he <;> simp [hmap, he]
    simpa using this
  simp [hnil, assertionReward]

/-- The reward composer in closed form: the scalar reward is the product
of exactly the signals selected by the basis, and the breakdown lists
exactly the selected signals keyed by kind. -/
theorem composeReward_eq (db_reward env_assertion_reward : Int)
    (basis : List RewardType) :
    composeReward db_reward env_assertion_reward basis =
      ((if RewardType.DB ∈ basis then db_reward else 1) *
          (if RewardType.ENV_ASSERTION ∈ basis then env_assertion_reward else 1),
        (if RewardType.DB ∈ basis then [(RewardType.DB, db_reward)] else [])
          ++ (if RewardType.ENV_ASSERTION ∈ basis then
                [(RewardType.ENV_ASSERTION, env_assertion_reward)] else [])) := by
  unfold composeReward
  by_cases h1 : RewardType.DB ∈ basis <;>
    by_cases h2 : RewardType.ENV_ASSERTION ∈ basis <;>
      simp [h1, h2, one_mul, mul_one]

/-- Claim C2: on a successful full evaluation the scalar reward is the
product of exactly those signal values whose kind appears in the task's
reward basis — the db reward enters iff `DB` is in the basis, the
aggregate assertion reward iff `ENV_ASSERTION` is — and the breakdown
contains exactly the selected signals keyed by kind; a signal outside
the basis leaves the scalar reward untouched even though it was
computed. -/
theorem reward_basis_selection (env : EnvironmentImpl σ) (task : Task)
    (full_trajectory : List Message) (solo_mode logfireEnabled : Bool)
    (crit : EvaluationCriteria) (ri : RewardInfo) (log : List LogEvent)
    (h : task.evaluation_criteria = some crit)
    (hne : ¬(crit.actions = none ∧ crit.env_assertions = none))
    (hok : calculate_reward env task full_trajectory solo_mode logfireEnabled =
      .ok (ri, log)) :
    ∃ dbc checks,
      ri.db_check = some dbc ∧
      ri.env_assertions = some checks ∧
      ri.reward_basis = some crit.reward_basis ∧
      ri.reward_breakdown = some
        ((if RewardType.DB ∈ crit.reward_basis then
            [(RewardType.DB, dbc.db_reward)] else [])
          ++ (if RewardType.ENV_ASSERTION ∈ crit.reward_basis then
                [(RewardType.ENV_ASSERTION, assertionReward checks)] else [])) ∧
      ri.reward =
        (if RewardType.DB ∈ crit.reward_basis then dbc.db_reward else 1) *
          (if RewardType.ENV_ASSERTION ∈ crit.reward_basis then
            assertionReward checks else 1) := by
  rw [calculate_reward_full env task full_trajectory solo_mode logfireEnabled crit
    h hne] at hok
  obtain ⟨predicted, gold0, gold, goldLog, checks, hp, hg, hr, ha, hri, hlog⟩ :=
    fullEval_ok_elim hok
  refine ⟨{ db_match := (compareDbs env task.id gold predicted).db_match
            db_reward := (compareDbs env task.id gold predicted).db_reward },
    checks, by rw [hri], by rw [hri], by rw [hri], ?_, ?_⟩
  · rw [hri]
    simp only [composeReward_eq]
  · rw [hri]
    simp only [composeReward_eq]

/-- Witness for `db_check_binary` at the concrete witness task and
environment. -/
theorem db_check_binary_witness :
    witnessTask.evaluation_criteria = some witnessCriteria ∧
    ¬(witnessCriteria.actions = none ∧ witnessCriteria.env_assertions = none) ∧
    calculate_reward testEnv witnessTask [] false false =
      .ok (witnessRewardInfo, witnessLog) ∧
    ∃ predicted gold,
      (∃ gold0 goldLog,
        testEnv.set_state (testEnv.construct (some false))
          (taskInitializationData witnessTask)
          (taskInitializationActions witnessTask) [] = .ok predicted ∧
        testEnv.set_state (testEnv.construct none)
          (taskInitializationData witnessTask)
          (taskInitializationActions witnessTask)
          (taskMessageHistory witnessTask) = .ok gold0 ∧
        runGoldenActions testEnv witnessTask.id false gold0
          (witnessCriteria.actions.getD []) 0 = .ok (gold, goldLog)) ∧
      witnessRewardInfo.db_check = some
        { db_match := (testEnv.get_db_hash gold == testEnv.get_db_hash predicted)
            && (testEnv.get_user_db_hash gold == testEnv.get_user_db_hash predicted)
          db_reward :=
            if (testEnv.get_db_hash gold == testEnv.get_db_hash predicted)
                && (testEnv.get_user_db_hash gold == testEnv.get_user_db_hash predicted)
            then 1 else 0 } :=
  ⟨rfl, by decide, by decide,
    db_check_binary testEnv witnessTask [] false false witnessCriteria
      witnessRewardInfo witnessLog rfl (by decide) (by decide)⟩

/-- Witness for `assertion_runner_contract` at the concrete witness task
and environment. -/
theorem assertion_runner_contract_witness :
    witnessTask.evaluation_criteria = some witnessCriteria ∧
    ¬(witnessCriteria.actions = none ∧ witnessCriteria.env_assertions = none) ∧
    calculate_reward testEnv witnessTask [] false false =
      .ok (witnessRewardInfo, witnessLog) ∧
    ∃ predicted checks,
      testEnv.set_state (testEnv.construct (some false))
        (taskInitializationData witnessTask)
        (taskInitializationActions witnessTask) [] = .ok predicted ∧
      witnessRewardInfo.env_assertions = some checks ∧
      checks.map (fun c => c.env_assertion) =
        witnessCriteria.env_assertions.getD [] ∧
      (∀ c ∈ checks,
        testEnv.run_env_assertion predicted c.env_assertion false = .ok c.met ∧
        c.reward = (if c.met then 1 else 0)) ∧
      assertionReward checks = (if checks.all (fun c => c.met) then 1 else 0) ∧
      (witnessCriteria.env_assertions = some [] ∨
          witnessCriteria.env_assertions = none →
        assertionReward checks = 1) :=
  ⟨rfl, by decide, by decide,
    assertion_runner_contract testEnv witnessTask [] false false witnessCriteria
      witnessRewardInfo witnessLog rfl (by decide) (by decide)⟩

/-- Witness for `reward_basis_selection` at the concrete witness task
and environment. -/
theorem reward_basis_selection_witness :
    witnessTask.evaluation_criteria = some witnessCriteria ∧
    ¬(witnessCriteria.actions = none ∧ witnessCriteria.env_assertions = none) ∧
    calculate_reward testEnv witnessTask [] false false =
      .ok (witnessRewardInfo, witnessLog) ∧
    ∃ dbc checks,
      witnessRewardInfo.db_check = some dbc ∧
      witnessRewardInfo.env_assertions = some checks ∧
      witnessRewardInfo.reward_basis = some witnessCriteria.reward_basis ∧
      witnessRewardInfo.reward_breakdown = some
        ((if RewardType.DB ∈ witnessCriteria.reward_basis then
            [(RewardType.DB, dbc.db_reward)] else [])
          ++ (if RewardType.ENV_ASSERTION ∈ witnessCriteria.reward_basis then
                [(RewardType.ENV_ASSERTION, assertionReward checks)] else [])) ∧
      witnessRewardInfo.reward =
        (if RewardType.DB ∈ witnessCriteria.reward_basis then dbc.db_reward else 1) *
          (if RewardType.ENV_ASSERTION ∈ witnessCriteria.reward_basis then
            assertionReward checks else 1) :=
  ⟨rfl, by decide, by decide,
    reward_basis_selection testEnv witnessTask [] false false witnessCriteria
      witnessRewardInfo witnessLog rfl (by decide) (by decide)⟩

/-- Counterexample to claim C6 as stated: the before-action agent-db
snapshot of the golden-action loop (line 97) is diagnostic — its value
is only ever used for the Logfire diff — yet it is taken outside any
try/except whenever the gold environment has tools, even with the sink
disabled.  With an environment whose snapshot getter fails, scoring
aborts with that error instead of returning a `RewardInfo`. -/
theorem diagnostic_snapshot_abort_cex :
    calculate_reward badSnapshotEnv
        (Task.mk "t"
          (some (EvaluationCriteria.mk (some [Action.mk "a" .agent []]) none
            [RewardType.DB]))
          none)
        [] false false = .error "snapshot failed" := by
  decide

/-- One golden step yields the same outcome — same error, or same
resulting gold state — whether the diagnostic sink is enabled or not;
only the emitted log differs. -/
theorem goldStep_map_fst (env : EnvironmentImpl σ) (task_id : String)
    (lf₁ lf₂ : Bool) (s : σ) (step_index : Nat) (action : Action) :
    (goldStep env task_id lf₁ s step_index action).map Prod.fst =
      (goldStep env task_id lf₂ s step_index action).map Prod.fst := by
  unfold goldStep
  cases hX : (if env.hasTools s then (env.get_agent_db_state s).map some
      else pure none : Except String (Option DbState)) with
  | error e => simp [exceptBind_error, Except.map]
  | ok before =>
      rw [exceptBind_ok, exceptBind_ok]
      cases hM : env.make_tool_call s action.name action.requestor action.arguments with
      | ok s' => simp [Except.map, exceptPure]
      | error e => simp [Except.map, exceptPure]

/-- Golden replay yields the same outcome — same error, or same final
gold state — whether the diagnostic sink is enabled or not. -/
theorem runGoldenActions_map_fst (env : EnvironmentImpl σ) (task_id : String)
    (lf₁ lf₂ : Bool) (acts : List Action) :
    ∀ (s : σ) (step_index : Nat),
      (runGoldenActions env task_id lf₁ s acts step_index).map Prod.fst =
        (runGoldenActions env task_id lf₂ s acts step_index).map Prod.fst := by
  induction acts with
  | nil => intro s i; rfl
  | cons a rest ih =>
      intro s i
      have hstep := goldStep_map_fst env task_id lf₁ lf₂ s i a
      rw [runGoldenActions, runGoldenActions]
      cases h1 : goldStep env task_id lf₁ s i a with
      | error e =>
          cases h2 : goldStep env task_id lf₂ s i a with
          | error e' =>
              rw [h1, h2] at hstep
              simp only [Except.map] at hstep
              injection hstep with hstep
              subst hstep
              simp [exceptBind_error, Except.map]
          | ok q => rw [h1, h2] at hstep; simp [Except.map] at hstep
      | ok p =>
          cases h2 : goldStep env task_id lf₂ s i a with
          | error e' => rw [h1, h2] at hstep; simp [Except.map] at hstep
          | ok q =>
              rw [h1, h2] at hstep
              simp only [Except.map] at hstep
              injection hstep with hstep
              rw [exceptBind_ok, exceptBind_ok, hstep]
              have ihs := ih q.1 (i + 1)
              cases h3 : runGoldenActions env task_id lf₁ q.1 rest (i + 1) with
              | error e =>
                  cases h4 : runGoldenActions env task_id lf₂ q.1 rest (i + 1) with
                  | error e' =>
                      rw [h3, h4] at ihs
                      simp only [Except.map] at ihs
                      injection ihs with ihs
                      subst ihs
                      simp [exceptBind_error, Except.map]
                  | ok r => rw [h3, h4] at ihs; simp [Except.map] at ihs
              | ok r =>
                  cases h4 : runGoldenActions env task_id lf₂ q.1 rest (i + 1) with
                  | error e' => rw [h3, h4] at ihs; simp [Except.map] at ihs
                  | ok r' =>
                      rw [h3, h4] at ihs
                      simp only [Except.map] at ihs
                      injection ihs with ihs
                      rw [exceptBind_ok, exceptBind_ok, ihs]
                      simp [exceptPure, Except.map]

/-- The full-evaluation path returns the same outcome — same error or
same `RewardInfo` — whether the diagnostic sink is enabled or not. -/
theorem fullEval_map_fst (env : EnvironmentImpl σ) (task : Task)
    (crit : EvaluationCriteria) (traj : List Message) (solo : Bool) :
    (fullEval env task crit traj solo true).map Prod.fst =
      (fullEval env task crit traj solo false).map Prod.fst := by
  simp only [fullEval]
  cases hp : env.set_state (env.construct (some solo)) (taskInitializationData task)
      (taskInitializationActions task) traj with
  | error e => simp [exceptBind_error, Except.map]
  | ok predicted =>
      rw [exceptBind_ok, exceptBind_ok]
      cases hg : env.set_state (env.construct none) (taskInitializationData task)
          (taskInitializationActions task) (taskMessageHistory task) with
      | error e => simp [exceptBind_error, Except.map]
      | ok gold0 =>
          rw [exceptBind_ok, exceptBind_ok]
          have hga := runGoldenActions_map_fst env task.id true false
            (crit.actions.getD []) gold0 0
          cases h3 : runGoldenActions env task.id true gold0 (crit.actions.getD []) 0 with
          | error e =>
              cases h4 : runGoldenActions env task.id false gold0
                  (crit.actions.getD []) 0 with
              | error e' =>
                  rw [h3, h4] at hga
                  simp only [Except.map] at hga
                  injection hga with hga
                  subst hga
                  simp [exceptBind_error, Except.map]
              | ok r => rw [h3, h4] at hga; simp [Except.map] at hga
          | ok r =>
              cases h4 : runGoldenActions env task.id false gold0
                  (crit.actions.getD []) 0 with
              | error e' => rw [h3, h4] at hga; simp [Except.map] at hga
              | ok r' =>
                  rw [h3, h4] at hga
                  simp only [Except.map] at hga
                  injection hga with hga
                  rw [exceptBind_ok, exceptBind_ok, hga]
                  cases ha : runAssertions env predicted (crit.env_assertions.getD []) with
                  | error e => simp [exceptBind_error, Except.map]
                  | ok checks => simp [exceptBind_ok, exceptPure, Except.map]

/-- Claim C6 (amended): whether the diagnostic sink is enabled or
disabled makes zero difference to the returned outcome of
`calculate_reward` — the same error, or the same `RewardInfo` (reward,
db_check, env_assertions, breakdown); only the emitted diagnostics
differ.  In particular an error raised inside the sink-guarded blocks
(after-action snapshot, diff computation, span emission) never aborts
scoring.  The unguarded before-action snapshot is the exception
established by the counterexample: its error aborts scoring with the
sink disabled as well as enabled. -/
theorem logfire_noop_on_result (env : EnvironmentImpl σ) (task : Task)
    (full_trajectory : List Message) (solo_mode : Bool) :
    (calculate_reward env task full_trajectory solo_mode true).map Prod.fst =
      (calculate_reward env task full_trajectory solo_mode false).map Prod.fst := by
  unfold calculate_reward
  cases task.evaluation_criteria with
  | none => rfl
  | some crit =>
      by_cases hne : crit.actions = none ∧ crit.env_assertions = none
      · simp [hne]
      · simp only [hne, if_false]
        exact fullEval_map_fst env task crit full_trajectory solo_mode

section Bisimulation

variable {σ₁ σ₂ : Type} {env₁ : EnvironmentImpl σ₁} {env₂ : EnvironmentImpl σ₂}
variable {R : σ₁ → σ₂ → Prop}

/-- One golden step on bisimilar states: same error, or related states
and identical logs. -/
theorem goldStep_bisim (hB : EnvBisim env₁ env₂ R) (task_id : String)
    (lf : Bool) {s₁ : σ₁} {s₂ : σ₂} (hR : R s₁ s₂) (i : Nat) (a : Action) :
    exceptRel (fun p q => R p.1 q.1 ∧ p.2 = q.2)
      (goldStep env₁ task_id lf s₁ i a) (goldStep env₂ task_id lf s₂ i a) := by
  unfold goldStep
  rw [hB.hasTools hR, hB.get_agent_db_state hR]
  cases hX : (if env₂.hasTools s₂ then (env₂.get_agent_db_state s₂).map some
      else pure none : Except String (Option DbState)) with
  | error e => simp [exceptBind_error, exceptRel]
  | ok before =>
      rw [exceptBind_ok, exceptBind_ok]
      have hmtc := hB.make_tool_call a.name a.requestor a.arguments hR
      cases h1 : env₁.make_tool_call s₁ a.name a.requestor a.arguments with
      | error e =>
          cases h2 : env₂.make_tool_call s₂ a.name a.requestor a.arguments with
          | error e' =>
              rw [h1, h2] at hmtc
              simp only [exceptRel] at hmtc
              subst hmtc
              simp only [exceptPure]
              rw [hB.hasTools hR, hB.get_agent_db_state hR]
              simp [exceptRel, hR]
          | ok q => rw [h1, h2] at hmtc; simp [exceptRel] at hmtc
      | ok s₁' =>
          cases h2 : env₂.make_tool_call s₂ a.name a.requestor a.arguments with
          | error e' => rw [h1, h2] at hmtc; simp [exceptRel] at hmtc
          | ok s₂' =>
              rw [h1, h2] at hmtc
              simp only [exceptRel] at hmtc
              simp only [exceptPure]
              rw [hB.hasTools hmtc, hB.get_agent_db_state hmtc]
              simp [exceptRel, hmtc]

/-- Golden replay on bisimilar states: same error, or related final
states and identical logs. -/
theorem runGoldenActions_bisim (hB : EnvBisim env₁ env₂ R) (task_id : String)
    (lf : Bool) (acts : List Action) :
    ∀ {s₁ : σ₁} {s₂ : σ₂}, R s₁ s₂ → ∀ (i : Nat),
      exceptRel (fun p q => R p.1 q.1 ∧ p.2 = q.2)
        (runGoldenActions env₁ task_id lf s₁ acts i)
        (runGoldenActions env₂ task_id lf s₂ acts i) := by
  induction acts with
  | nil =>
      intro s₁ s₂ hR i
      simp [runGoldenActions, exceptPure, exceptRel, hR]
  | cons a rest ih =>
      intro s₁ s₂ hR i
      have hstep := goldStep_bisim hB task_id lf hR i a
      rw [runGoldenActions, runGoldenActions]
      cases h1 : goldStep env₁ task_id lf s₁ i a with
      | error e =>
          cases h2 : goldStep env₂ task_id lf s₂ i a with
          | error e' =>
              rw [h1, h2] at hstep
              simp only [exceptRel] at hstep
              subst hstep
              simp [exceptBind_error, exceptRel]
          | ok q => rw [h1, h2] at hstep; simp [exceptRel] at hstep
      | ok p =>
          cases h2 : goldStep env₂ task_id lf s₂ i a with
          | error e' => rw [h1, h2] at hstep; simp [exceptRel] at hstep
          | ok q =>
              rw [h1, h2] at hstep
              obtain ⟨hpq, hlog⟩ := hstep
              rw [exceptBind_ok, exceptBind_ok]
              have ihs := ih hpq (i + 1)
              cases h3 : runGoldenActions env₁ task_id lf p.1 rest (i + 1) with
              | error e =>
                  cases h4 : runGoldenActions env₂ task_id lf q.1 rest (i + 1) with
                  | error e' =>
                      rw [h3, h4] at ihs
                      simp only [exceptRel] at ihs
                      subst ihs
                      simp [exceptBind_error, exceptRel]
                  | ok r => rw [h3, h4] at ihs; simp [exceptRel] at ihs
              | ok r =>
                  cases h4 : runGoldenActions env₂ task_id lf q.1 rest (i + 1) with
                  | error e' => rw [h3, h4] at ihs; simp [exceptRel] at ihs
                  | ok r' =>
                      rw [h3, h4] at ihs
                      obtain ⟨hrr, hlog2⟩ := ihs
                      simp [exceptBind_ok, exceptPure, exceptRel, hrr, hlog, hlog2]

/-- Assertion evaluation coincides on bisimilar predicted states. -/
theorem runAssertions_bisim (hB : EnvBisim env₁ env₂ R) {s₁ : σ₁} {s₂ : σ₂}
    (hR : R s₁ s₂) (asserts : List EnvAssertion) :
    runAssertions env₁ s₁ asserts = runAssertions env₂ s₂ asserts := by
  induction asserts with
  | nil => rfl
  | cons a rest ih =>
      rw [runAssertions, runAssertions, hB.run_env_assertion a false hR, ih]

/-- The comparator output coincides on bisimilar pairs of states. -/
theorem compareDbs_bisim (hB : EnvBisim env₁ env₂ R) (task_id : String)
    {g₁ p₁ : σ₁} {g₂ p₂ : σ₂} (hRg : R g₁ g₂) (hRp : R p₁ p₂) :
    compareDbs env₁ task_id g₁ p₁ = compareDbs env₂ task_id g₂ p₂ := by
  unfold compareDbs
  rw [hB.get_db_hash hRg, hB.get_db_hash hRp, hB.get_user_db_hash hRg,
    hB.get_user_db_hash hRp]

/-- The db-check span log coincides on bisimilar pairs of states. -/
theorem dbCheckSpanLog_bisim (hB : EnvBisim env₁ env₂ R) (task_id : String)
    (lf : Bool) {g₁ p₁ : σ₁} {g₂ p₂ : σ₂} (hRg : R g₁ g₂) (hRp : R p₁ p₂)
    (c : DbComparison) :
    dbCheckSpanLog env₁ task_id lf g₁ p₁ c = dbCheckSpanLog env₂ task_id lf g₂ p₂ c := by
  unfold dbCheckSpanLog
  rw [hB.get_agent_db_state hRg, hB.get_user_db_state hRg,
    hB.get_agent_db_state hRp, hB.get_user_db_state hRp]

/-- The full-evaluation path coincides on bisimilar environment
implementations. -/
theorem fullEval_bisim (hB : EnvBisim env₁ env₂ R) (task : Task)
    (crit : EvaluationCriteria) (traj : List Message) (solo lf : Bool) :
    fullEval env₁ task crit traj solo lf = fullEval env₂ task crit traj solo lf := by
  simp only [fullEval]
  have hss := hB.set_state (taskInitializationData task)
    (taskInitializationActions task) traj (hB.construct (some solo))
  cases h1 : env₁.set_state (env₁.construct (some solo)) (taskInitializationData task)
      (taskInitializationActions task) traj with
  | error e =>
      cases h2 : env₂.set_state (env₂.construct (some solo)) (taskInitializationData task)
          (taskInitializationActions task) traj with
      | error e' =>
          rw [h1, h2] at hss
          simp only [exceptRel] at hss
          subst hss
          simp [exceptBind_error]
      | ok p => rw [h1, h2] at hss; simp [exceptRel] at hss
  | ok predicted₁ =>
      cases h2 : env₂.set_state (env₂.construct (some solo)) (taskInitializationData task)
          (taskInitializationActions task) traj with
      | error e' => rw [h1, h2] at hss; simp [exceptRel] at hss
      | ok predicted₂ =>
          rw [h1, h2] at hss
          simp only [exceptRel] at hss
          rw [exceptBind_ok, exceptBind_ok]
          have hgg := hB.set_state (taskInitializationData task)
            (taskInitializationActions task) (taskMessageHistory task)
            (hB.construct none)
          cases h3 : env₁.set_state (env₁.construct none) (taskInitializationData task)
              (taskInitializationActions task) (taskMessageHistory task) with
          | error e =>
              cases h4 : env₂.set_state (env₂.construct none) (taskInitializationData task)
                  (taskInitializationActions task) (taskMessageHistory task) with
              | error e' =>
                  rw [h3, h4] at hgg
                  simp only [exceptRel] at hgg
                  subst hgg
                  simp [exceptBind_error]
              | ok g => rw [h3, h4] at hgg; simp [exceptRel] at hgg
          | ok gold₁ =>
              cases h4 : env₂.set_state (env₂.construct none) (taskInitializationData task)
                  (taskInitializationActions task) (taskMessageHistory task) with
              | error e' => rw [h3, h4] at hgg; simp [exceptRel] at hgg
              | ok gold₂ =>
                  rw [h3, h4] at hgg
                  simp only [exceptRel] at hgg
                  rw [exceptBind_ok, exceptBind_ok]
                  have hga := runGoldenActions_bisim hB task.id lf
                    (crit.actions.getD []) hgg 0
                  cases h5 : runGoldenActions env₁ task.id lf gold₁
                      (crit.actions.getD []) 0 with
                  | error e =>
                      cases h6 : runGoldenActions env₂ task.id lf gold₂
                          (crit.actions.getD []) 0 with
                      | error e' =>
                          rw [h5, h6] at hga
                          simp only [exceptRel] at hga
                          subst hga
                          simp [exceptBind_error]
                      | ok r => rw [h5, h6] at hga; simp [exceptRel] at hga
                  | ok gr₁ =>
                      cases h6 : runGoldenActions env₂ task.id lf gold₂
                          (crit.actions.getD []) 0 with
                      | error e' => rw [h5, h6] at hga; simp [exceptRel] at hga
                      | ok gr₂ =>
                          rw [h5, h6] at hga
                          obtain ⟨hgr, hlog⟩ := hga
                          rw [exceptBind_ok, exceptBind_ok]
                          rw [runAssertions_bisim hB hss (crit.env_assertions.getD [])]
                          cases h7 : runAssertions env₂ predicted₂
                              (crit.env_assertions.getD []) with
                          | error e => simp [exceptBind_error]
                          | ok checks =>
                              rw [exceptBind_ok, exceptBind_ok]
                              rw [compareDbs_bisim hB task.id hgr hss,
                                dbCheckSpanLog_bisim hB task.id lf hgr hss, hlog]

/-- Claim C7: `calculate_reward` is deterministic across environment
constructors whose instances behave identically on identical call
sequences: for any two environment implementations related by a
bisimulation, the same task and trajectory yield the *same* result —
the same reward, the same `db_check`, the same breakdown, and the same
logged digests. -/
theorem calculate_reward_deterministic (hB : EnvBisim env₁ env₂ R) (task : Task)
    (full_trajectory : List Message) (solo_mode logfireEnabled : Bool) :
    calculate_reward env₁ task full_trajectory solo_mode logfireEnabled =
      calculate_reward env₂ task full_trajectory solo_mode logfireEnabled := by
  unfold calculate_reward
  cases task.evaluation_criteria with
  | none => rfl
  | some crit =>
      by_cases hne : crit.actions = none ∧ crit.env_assertions = none
      · simp [hne]
      · simp only [hne, if_false]
        exact fullEval_bisim hB task crit full_trajectory solo_mode logfireEnabled

end Bisimulation

/-- The mirrored test environment is bisimilar to the original. -/
theorem testEnv_bisim : EnvBisim testEnv testEnvSwapped testRel := by
  constructor
  · intro b; exact ⟨rfl, rfl⟩
  · intro s₁ s₂ d a m hR
    simp [testEnv, testEnvSwapped, exceptRel, testRel, hR.2]
  · intro s₁ s₂ n r args hR
    by_cases hn : n = "bad" <;>
      simp [testEnv, testEnvSwapped, exceptRel, testRel, hn, hR.1, hR.2]
  · intro s₁ s₂ hR
    simp [testEnv, testEnvSwapped, hR.1, hR.2]
  · intro s₁ s₂ hR; rfl
  · intro s₁ s₂ hR; rfl
  · intro s₁ s₂ hR
    simp [testEnv, testEnvSwapped, hR.1]
  · intro s₁ s₂ hR; rfl
  · intro s₁ s₂ a f hR; rfl

/-- Witness for `calculate_reward_deterministic`: the two concrete
bisimilar implementations produce the same result on the witness
task. -/
theorem calculate_reward_deterministic_witness :
    EnvBisim testEnv testEnvSwapped testRel ∧
    calculate_reward testEnv witnessTask [] false true =
      calculate_reward testEnvSwapped witnessTask [] false true :=
  ⟨testEnv_bisim,
    calculate_reward_deterministic testEnv_bisim witnessTask [] false true⟩

end Tau2

